import Mathlib

/-!
Shallow embedding of `CloudRunPy.py` (Organized92/cloudrunpy): a client
library for the CloudRun remote procedure service.  Python values that can
appear in JSON documents are modelled by `JValue`; the `requests` transport
is an external collaborator and is modelled as a function parameter; Python
exceptions are modelled by `Except`.

The embedding follows the source file closely:
  - `Connection.privRequest` embeds `Connection.__request` (lines 30-53),
  - `Connection.sendRequest`, `sendPreparedRequest`, `sendCustomRequest`
    embed lines 56-96,
  - the `Request` builder (lines 100-165) is embedded with its class-level
    `data = {}` attribute: since `Request.__init__` assigns only
    `self.module` and no method ever rebinds `self.data`, every attribute
    access `self.data` resolves to the single class-level dictionary, which
    is mutated in place.  This is modelled by `RequestWorld`, which holds
    that one shared dictionary, while each `RequestInstance` holds only its
    `module` field.
  - `Response.__init__` (lines 180-191) and `CloudRunError` (line 194).
-/

/-- JSON-decodable Python values (the results of `req.json()` and the
payloads serialized by `requests.post(json=...)`). -/
inductive JValue where
  | null : JValue
  | bool : Bool → JValue
  | int : Int → JValue
  | str : String → JValue
  | arr : List JValue → JValue
  | obj : List (String × JValue) → JValue

/-- Python exceptions that the embedded fragments can raise locally. -/
inductive PyErr where
  | keyError : String → PyErr
  | typeError : PyErr
  | osError : PyErr
deriving DecidableEq

/-- Python `str()` on a decoded JSON scalar (`str(answer[...])` at line 50 of
the source).  Containers are rendered with Python `repr` conventions (single
quotes around strings); no claim evaluates those branches. -/
def pyStr : JValue → String
  | .null => "None"
  | .bool b => if b then "True" else "False"
  | .int n => toString n
  | .str s => s
  | .arr _ => "[...]"
  | .obj _ => "{...}"

/-- Python `value == "s"` for a decoded JSON value against a string literal
(used by `in` on lists). -/
def JValue.eqStr : JValue → String → Bool
  | .str t, s => t == s
  | _, _ => false

/-- Python substring test `needle in hay` on strings. -/
def pySubstr (needle hay : String) : Bool :=
  needle == "" || (hay.splitOn needle).length ≥ 2

/-- Python `key in answer` where `answer` is a decoded JSON document
(line 49 of the source: `if 'error' in answer`).  Dict membership tests
keys, list membership tests elements, string membership is substring;
`in` on the remaining scalars raises `TypeError`. -/
def pyContains (key : String) : JValue → Except PyErr Bool
  | .obj fields => .ok (fields.any (fun p => p.1 == key))
  | .arr xs => .ok (xs.any (fun x => x.eqStr key))
  | .str s => .ok (pySubstr key s)
  | _ => .error .typeError

/-- Python subscript `answer[key]` on a decoded JSON document (the
`answer['error']['code']` accesses at line 50).  Dict lookup raises
`KeyError` when the key is absent; subscripting a non-dict decoded value
with a string key raises `TypeError`. -/
def pyGetItem (v : JValue) (key : String) : Except PyErr JValue :=
  match v with
  | .obj fields =>
    match fields.find? (fun p => p.1 == key) with
    | some p => .ok p.2
    | none => .error (.keyError key)
  | _ => .error .typeError

/-- The `data` dictionary of the `Request` class: field name to value,
in insertion order, keys unique (as in a Python dict). -/
abbrev DataMap := List (String × JValue)

/-- Python `d[name] = value` on a dict: overwrite in place when the key
exists, append otherwise. -/
def DataMap.upsert : DataMap → String → JValue → DataMap
  | [], n, v => [(n, v)]
  | (k, w) :: rest, n, v =>
    if k = n then (k, v) :: rest else (k, w) :: DataMap.upsert rest n v

/-- Python `d[name]` lookup result as an `Option`. -/
def DataMap.lookup : DataMap → String → Option JValue
  | [], _ => none
  | (k, w) :: rest, n => if k = n then some w else DataMap.lookup rest n

/-- Python `del d[name]`: raises `KeyError` when `name` is absent,
otherwise removes that entry. -/
def DataMap.pyDel : DataMap → String → Except PyErr DataMap
  | [], n => .error (.keyError n)
  | (k, w) :: rest, n =>
    if k = n then .ok rest
    else
      match DataMap.pyDel rest n with
      | .ok rest2 => .ok ((k, w) :: rest2)
      | .error e => .error e

/-- The single class-level `data = {}` dictionary of the `Request` class
(line 105 of the source).  `Request.__init__` never assigns `self.data`,
so every instance resolves `self.data` to this one dictionary. -/
structure RequestWorld where
  classData : DataMap

/-- One `Request` instance: `__init__` stores only `self.module`
(line 116 of the source). -/
structure RequestInstance where
  module : String

namespace Request

/-- `Request(module)`: records the module on the new instance; the
class-level `data` dictionary is untouched (in particular it is not reset
to empty). -/
def new (w : RequestWorld) (module : String) : RequestWorld × RequestInstance :=
  (w, ⟨module⟩)

/-- Attribute access `r.data`: resolves to the class-level dictionary. -/
def data (w : RequestWorld) (_r : RequestInstance) : DataMap :=
  w.classData

/-- `Request.setData(name, value)` (line 128): `self.data[name] = value`.
The method receives `self` (the instance) and the class state; it mutates
only the class-level dictionary and leaves the instance untouched. -/
def setData (w : RequestWorld) (r : RequestInstance) (name : String)
    (value : JValue) : RequestWorld × RequestInstance :=
  (⟨w.classData.upsert name value⟩, r)

/-- `Request.removeData(name)` (line 155): `del self.data[name]`.  The
method returns nothing in Python; the embedding returns the raised
exception (if any) together with the state after the call — `del` on a
missing key raises `KeyError` and leaves the dictionary untouched. -/
def removeData (w : RequestWorld) (r : RequestInstance) (name : String) :
    Except PyErr Unit × (RequestWorld × RequestInstance) :=
  match w.classData.pyDel name with
  | .ok d => (.ok (), (⟨d⟩, r))
  | .error e => (.error e, (w, r))

/-- `Request.clearData()` (line 165): `self.data.clear()`. -/
def clearData (_w : RequestWorld) (r : RequestInstance) :
    RequestWorld × RequestInstance :=
  (⟨[]⟩, r)

end Request

/-- The character of the standard base64 alphabet at index `n < 64`
(`A`-`Z`, `a`-`z`, `0`-`9`, `+`, `/`), as used by
`base64.standard_b64encode`. -/
def b64Char (n : Nat) : Char :=
  if n < 26 then Char.ofNat (65 + n)
  else if n < 52 then Char.ofNat (97 + (n - 26))
  else if n < 62 then Char.ofNat (48 + (n - 52))
  else if n = 62 then '+'
  else '/'

/-- The index of a standard-base64 alphabet character (inverse of
`b64Char`); `0` for characters outside the alphabet. -/
def b64Val (c : Char) : Nat :=
  if 'A' ≤ c ∧ c ≤ 'Z' then c.toNat - 65
  else if 'a' ≤ c ∧ c ≤ 'z' then c.toNat - 97 + 26
  else if '0' ≤ c ∧ c ≤ '9' then c.toNat - 48 + 52
  else if c = '+' then 62
  else if c = '/' then 63
  else 0

/-- `base64.standard_b64encode` on a byte sequence: three input bytes
become four alphabet characters; a final group of one or two bytes is
padded with `=`. -/
def b64Encode : List Nat → List Char
  | [] => []
  | [a] => [b64Char (a / 4), b64Char (a % 4 * 16), '=', '=']
  | [a, b] => [b64Char (a / 4), b64Char (a % 4 * 16 + b / 16),
               b64Char (b % 16 * 4), '=']
  | a :: b :: c :: rest =>
    b64Char (a / 4) :: b64Char (a % 4 * 16 + b / 16) ::
    b64Char (b % 16 * 4 + c / 64) :: b64Char (c % 64) :: b64Encode rest

/-- External standard-base64 decoding (e.g. `base64.standard_b64decode` on
the receiving side): four characters become three bytes, with `=` padding
reducing the final group to one or two bytes. -/
def b64Decode : List Char → List Nat
  | c1 :: c2 :: c3 :: c4 :: rest =>
    if c3 = '=' then [b64Val c1 * 4 + b64Val c2 / 16]
    else if c4 = '=' then
      [b64Val c1 * 4 + b64Val c2 / 16, b64Val c2 % 16 * 16 + b64Val c3 / 4]
    else
      (b64Val c1 * 4 + b64Val c2 / 16) ::
      (b64Val c2 % 16 * 16 + b64Val c3 / 4) ::
      (b64Val c3 % 4 * 64 + b64Val c4) :: b64Decode rest
  | _ => []

/-- A Python file handle opened for binary reading: `readOutcome` is what
`file.read()` returns (the full byte content) or raises; `closed` is the
handle's `closed` flag. -/
structure PyFile where
  readOutcome : Except PyErr (List Nat)
  closed : Bool

namespace Request

/-- `Request.setDataFromFile(name, file)` (lines 131-144):
`self.data[name] = base64.standard_b64encode(file.read()).decode('ascii')`
then `file.close()`.  There is no `try`/`finally`: when `file.read()`
raises, the exception propagates and `file.close()` is never reached, so
the returned handle state keeps `closed` unchanged.  The result pairs the
call's outcome (the updated world or the propagated exception) with the
handle's state after the call. -/
def setDataFromFile (w : RequestWorld) (r : RequestInstance) (name : String)
    (file : PyFile) :
    Except PyErr Unit × (RequestWorld × RequestInstance) × PyFile :=
  match file.readOutcome with
  | .error e => (.error e, (w, r), file)
  | .ok content =>
    (.ok (),
     (⟨w.classData.upsert name (.str (String.mk (b64Encode content)))⟩, r),
     { file with closed := true })

end Request

/-- Failures of the external `requests.post` call below the HTTP layer
(connection refused, timeout, TLS failure).  They propagate uncaught
through `Connection.__request`. -/
inductive ConnErr where
  | timeout : ConnErr
  | connectionError : ConnErr
deriving DecidableEq

/-- The raw result of one `requests.post` exchange: HTTP status code,
headers, and the outcome of parsing the body as JSON (`req.json()` either
yields a decoded document or raises). -/
structure TransportResult where
  status : Nat
  json : Option JValue
  headers : List (String × String)

/-- The external transport collaborator: one blocking POST of a JSON body
to a URL path, returning a raw result or failing below the protocol
layer. -/
abbrev Transport := String → JValue → Except ConnErr TransportResult

/-- Every way one dispatch can fail in the source:
  - `connectivity`: `requests.post` itself raised,
  - `httpError`: `req.raise_for_status()` raised (`requests` raises
    exactly for status codes in `[400, 600)`),
  - `jsonDecodeError`: `req.json()` could not parse the body,
  - `pyError`: the `answer['error'][...]` accesses at line 50 raised
    `KeyError`/`TypeError`,
  - `cloudRunError`: the `CloudRunError` of line 194, raised at line 50
    carrying only its formatted message string,
  - `valueError`: the `ValueError` of line 82. -/
inductive DispatchError where
  | connectivity : ConnErr → DispatchError
  | httpError : Nat → DispatchError
  | jsonDecodeError : DispatchError
  | pyError : PyErr → DispatchError
  | cloudRunError : String → DispatchError
  | valueError : String → DispatchError

/-- The `Connection` class: URL, port and application token (lines 25-27).
The transport configuration fields (`verifySSL`, `timeout`, `auth`,
`proxies`) are consumed only by the external transport and carry no
protocol logic, so they are not modelled. -/
structure Connection where
  url : String
  port : Nat
  token : String

namespace Connection

/-- The endpoint path built at line 39:
`str(self.url) + ":" + str(self.port) + "/" + str(handler) + "/"`. -/
def requestPath (c : Connection) (handler : String) : String :=
  c.url ++ ":" ++ toString c.port ++ "/" ++ handler ++ "/"

/-- Lines 46-53 of `Connection.__request`, applied to the outcome of the
`requests.post` call: `raise_for_status`, then `req.json()`, then the
`'error'` marker inspection; on the error marker, raise
`CloudRunError("Error " + str(code) + ": " + str(message))`. -/
def processTransport (outcome : Except ConnErr TransportResult) :
    Except DispatchError TransportResult :=
  match outcome with
  | .error e => .error (.connectivity e)
  | .ok req =>
    if 400 ≤ req.status ∧ req.status < 600 then .error (.httpError req.status)
    else
      match req.json with
      | none => .error .jsonDecodeError
      | some answer =>
        match pyContains "error" answer with
        | .error e => .error (.pyError e)
        | .ok true =>
          match pyGetItem answer "error" with
          | .error e => .error (.pyError e)
          | .ok errObj =>
            match pyGetItem errObj "code" with
            | .error e => .error (.pyError e)
            | .ok code =>
              match pyGetItem errObj "message" with
              | .error e => .error (.pyError e)
              | .ok message =>
                .error (.cloudRunError
                  ("Error " ++ pyStr code ++ ": " ++ pyStr message))
        | .ok false => .ok req

/-- `Connection.__request(handler, payload)` (lines 30-53): POST the
payload to the resolved endpoint path, then classify the outcome. -/
def privRequest (c : Connection) (t : Transport) (handler : String)
    (payload : JValue) : Except DispatchError TransportResult :=
  processTransport (t (c.requestPath handler) payload)

end Connection

/-- The `Response` class (lines 169-191): retains the raw transport
result, the re-decoded JSON body, the status code, and the headers. -/
structure Response where
  raw : TransportResult
  response : Option JValue
  status_code : Nat
  headers : List (String × String)

/-- `Response.__init__(response)` (lines 180-191). -/
def Response.ofReq (req : TransportResult) : Response :=
  ⟨req, req.json, req.status, req.headers⟩

namespace Connection

/-- The envelope built by `sendRequest` at line 65:
`{'token': self.token, 'module': module, 'data': data}`. -/
def sendRequestPayload (c : Connection) (module : String) (data : JValue) :
    JValue :=
  .obj [("token", .str c.token), ("module", .str module), ("data", data)]

/-- `Connection.sendRequest(module, data)` (lines 56-68). -/
def sendRequest (c : Connection) (t : Transport) (module : String)
    (data : JValue) : Except DispatchError Response :=
  (c.privRequest t "request" (c.sendRequestPayload module data)).map Response.ofReq

/-- The argument of `sendPreparedRequest`: either a value whose exact type
is `Request`, or any other Python value (`type(request) is Request` at
line 79 distinguishes the two). -/
inductive PreparedArg where
  | request : RequestInstance → PreparedArg
  | notRequest : JValue → PreparedArg

/-- `Connection.sendPreparedRequest(request)` (lines 71-82): exact-type
check, then `self.sendRequest(request.module, request.data)`; the
`request.data` attribute read resolves to the class-level dictionary of
`RequestWorld`. -/
def sendPreparedRequest (c : Connection) (t : Transport) (w : RequestWorld) :
    PreparedArg → Except DispatchError Response
  | .request r => c.sendRequest t r.module (.obj (Request.data w r))
  | .notRequest _ => .error (.valueError "request has to be a Request object")

/-- The envelope built by `sendCustomRequest` at line 94:
`{'token': self.token, 'data': data}`. -/
def sendCustomRequestPayload (c : Connection) (data : JValue) : JValue :=
  .obj [("token", .str c.token), ("data", data)]

/-- `Connection.sendCustomRequest(handler, data)` (lines 85-96). -/
def sendCustomRequest (c : Connection) (t : Transport) (handler : String)
    (data : JValue) : Except DispatchError Response :=
  (c.privRequest t handler (c.sendCustomRequestPayload data)).map Response.ofReq

end Connection

/-! ### Concrete scenario stubs, for closed evaluations -/

/-- A fixed `Connection` for concrete evaluations. -/
def demoConn : Connection :=
  ⟨"http://server", 1337, "tok"⟩

/-- Transport stub: HTTP 200 whose JSON body is
`{"error": {"code": "1: a", "message": "b"}}` (a string-valued code). -/
def errTransportStrCode : Transport := fun _ _ =>
  .ok ⟨200, some (.obj [("error",
    .obj [("code", .str "1: a"), ("message", .str "b")])]), []⟩

/-- Transport stub: HTTP 200 whose JSON body is
`{"error": {"code": 1, "message": "a: b"}}` (an integer-valued code). -/
def errTransportIntCode : Transport := fun _ _ =>
  .ok ⟨200, some (.obj [("error",
    .obj [("code", .int 1), ("message", .str "a: b")])]), []⟩

/-- The raw result of a transport exchange that ends with HTTP status 301
(non-2xx) and a JSON body carrying the error marker. -/
def redirectResult : TransportResult :=
  ⟨301, some (.obj [("error",
    .obj [("code", .int 7), ("message", .str "x")])]), []⟩

/-- Transport stub returning `redirectResult`. -/
def redirectTransport : Transport := fun _ _ =>
  .ok redirectResult

/-- Transport stub: HTTP 500 with an unparseable body. -/
def serverErrTransport : Transport := fun _ _ =>
  .ok ⟨500, none, []⟩

/-! ### Helper lemmas -/

theorem DataMap.lookup_upsert_self (d : DataMap) (n : String) (v : JValue) :
    (d.upsert n v).lookup n = some v := by
  induction d with
  | nil => simp [DataMap.upsert, DataMap.lookup]
  | cons p rest ih =>
    obtain ⟨k, w⟩ := p
    by_cases h : k = n
    · simp [DataMap.upsert, DataMap.lookup, h]
    · simp [DataMap.upsert, DataMap.lookup, h, ih]

theorem DataMap.lookup_eq_none_of_not_mem (d : DataMap) (n : String)
    (h : n ∉ d.map Prod.fst) : d.lookup n = none := by
  induction d with
  | nil => rfl
  | cons p rest ih =>
    obtain ⟨k, w⟩ := p
    simp only [List.map_cons, List.mem_cons] at h
    push_neg at h
    simp only [DataMap.lookup]
    rw [if_neg (fun hh => h.1 hh.symm)]
    exact ih h.2

theorem DataMap.pyDel_of_lookup_none (d : DataMap) (n : String)
    (h : d.lookup n = none) : d.pyDel n = .error (.keyError n) := by
  induction d with
  | nil => rfl
  | cons p rest ih =>
    obtain ⟨k, w⟩ := p
    simp only [DataMap.lookup] at h
    by_cases hk : k = n
    · rw [if_pos hk] at h
      exact absurd h (by simp)
    · rw [if_neg hk] at h
      simp only [DataMap.pyDel, if_neg hk]
      rw [ih h]

theorem DataMap.pyDel_of_lookup_some (d : DataMap) (n : String) (v : JValue)
    (hv : d.lookup n = some v) (hnd : (d.map Prod.fst).Nodup) :
    ∃ d2, d.pyDel n = .ok d2 ∧ d2.lookup n = none ∧
      ∀ k, k ≠ n → d2.lookup k = d.lookup k := by
  induction d with
  | nil => simp [DataMap.lookup] at hv
  | cons p rest ih =>
    obtain ⟨k0, w0⟩ := p
    simp only [List.map_cons, List.nodup_cons] at hnd
    by_cases hk : k0 = n
    · refine ⟨rest, ?_, ?_, ?_⟩
      · simp only [DataMap.pyDel, if_pos hk]
      · exact DataMap.lookup_eq_none_of_not_mem rest n (hk ▸ hnd.1)
      · intro k hkn
        simp only [DataMap.lookup]
        rw [if_neg (by rw [hk]; exact fun hh => hkn hh.symm)]
    · simp only [DataMap.lookup] at hv
      rw [if_neg hk] at hv
      obtain ⟨d2, hdel, hnone, hpres⟩ := ih hv hnd.2
      refine ⟨(k0, w0) :: d2, ?_, ?_, ?_⟩
      · simp only [DataMap.pyDel, if_neg hk]
        rw [hdel]
      · simp only [DataMap.lookup]
        rw [if_neg hk]
        exact hnone
      · intro k hkn
        simp only [DataMap.lookup]
        by_cases hk0k : k0 = k
        · rw [if_pos hk0k, if_pos hk0k]
        · rw [if_neg hk0k, if_neg hk0k]
          exact hpres k hkn

theorem b64Val_b64Char : ∀ n : Nat, n < 64 → b64Val (b64Char n) = n := by
  decide

theorem b64Char_ne_pad : ∀ n : Nat, n < 64 → b64Char n ≠ '=' := by
  decide

theorem b64_roundtrip (B : List Nat) (hB : ∀ b ∈ B, b < 256) :
    b64Decode (b64Encode B) = B := by
  induction B using b64Encode.induct with
  | case1 => rfl
  | case2 a =>
    have ha : a < 256 := hB a (by simp)
    have h1 : a / 4 < 64 := by omega
    have h2 : a % 4 * 16 < 64 := by omega
    simp only [b64Encode, b64Decode, if_true]
    rw [b64Val_b64Char _ h1, b64Val_b64Char _ h2]
    simp only [List.cons.injEq, and_true]
    omega
  | case3 a b =>
    have ha : a < 256 := hB a (by simp)
    have hb : b < 256 := hB b (by simp)
    have h1 : a / 4 < 64 := by omega
    have h2 : a % 4 * 16 + b / 16 < 64 := by omega
    have h3 : b % 16 * 4 < 64 := by omega
    simp only [b64Encode, b64Decode, if_true]
    rw [if_neg (b64Char_ne_pad _ h3), b64Val_b64Char _ h1,
      b64Val_b64Char _ h2, b64Val_b64Char _ h3]
    simp only [List.cons.injEq, and_true]
    omega
  | case4 a b c rest ih =>
    have ha : a < 256 := hB a (by simp)
    have hb : b < 256 := hB b (by simp)
    have hc : c < 256 := hB c (by simp)
    have h1 : a / 4 < 64 := by omega
    have h2 : a % 4 * 16 + b / 16 < 64 := by omega
    have h3 : b % 16 * 4 + c / 64 < 64 := by omega
    have h4 : c % 64 < 64 := by omega
    have hrest : ∀ x ∈ rest, x < 256 := by
      intro x hx
      exact hB x (by simp [hx])
    simp only [b64Encode, b64Decode]
    rw [if_neg (b64Char_ne_pad _ h3), if_neg (b64Char_ne_pad _ h4),
      b64Val_b64Char _ h1, b64Val_b64Char _ h2, b64Val_b64Char _ h3,
      b64Val_b64Char _ h4, ih hrest]
    simp only [List.cons.injEq, and_true]
    omega

/-! ### Claims -/

/-- C1: the spec requires each `Request` to own a private data map, with
`setData` on one instance never observable on another and every new
instance starting empty.  The code declares `data = {}` as a class-level
attribute and `__init__` never assigns `self.data`, so all instances share
one dictionary: after constructing `r1` and `r2` and calling
`r1.setData("x", 1)`, the entry is visible through `r2.data`, and a
`Request` constructed afterwards starts with that non-empty map. -/
theorem c1_data_map_is_shared_eval :
    Request.data
        (Request.setData (Request.new (Request.new ⟨[]⟩ "m1").1 "m2").1
          (Request.new ⟨[]⟩ "m1").2 "x" (JValue.int 1)).1
        (Request.new (Request.new ⟨[]⟩ "m1").1 "m2").2
      = [("x", JValue.int 1)]
    ∧ Request.data
        (Request.new
          (Request.setData (Request.new (Request.new ⟨[]⟩ "m1").1 "m2").1
            (Request.new ⟨[]⟩ "m1").2 "x" (JValue.int 1)).1 "m3").1
        (Request.new
          (Request.setData (Request.new (Request.new ⟨[]⟩ "m1").1 "m2").1
            (Request.new ⟨[]⟩ "m1").2 "x" (JValue.int 1)).1 "m3").2
      ≠ [] :=
  ⟨rfl, fun h => nomatch h⟩

/-- C9: for every `Request` and every prior state of its data map,
`clearData()` followed by `setData("x", 1)` leaves the data map equal to
exactly `{"x": 1}`, and the module field is preserved. -/
theorem c9_clearData_then_setData (w : RequestWorld) (r : RequestInstance) :
    Request.data
        (Request.setData (Request.clearData w r).1 (Request.clearData w r).2
          "x" (JValue.int 1)).1
        (Request.setData (Request.clearData w r).1 (Request.clearData w r).2
          "x" (JValue.int 1)).2
      = [("x", JValue.int 1)]
    ∧ (Request.setData (Request.clearData w r).1 (Request.clearData w r).2
          "x" (JValue.int 1)).2.module = r.module :=
  ⟨rfl, rfl⟩

/-- C10: on a data map with unique keys (the Python dict invariant),
`removeData(name)` on an absent field raises `KeyError` (not a silent
no-op) and leaves the state unchanged; on a present field it removes
exactly that field, leaving every other key's binding intact. -/
theorem c10_removeData_missing_raises (w : RequestWorld) (r : RequestInstance)
    (name : String) (hkeys : ((Request.data w r).map Prod.fst).Nodup) :
    ((Request.data w r).lookup name = none →
      Request.removeData w r name = (.error (.keyError name), (w, r)))
    ∧ ∀ v, (Request.data w r).lookup name = some v →
      ∃ w2, Request.removeData w r name = (.ok (), (w2, r))
        ∧ (Request.data w2 r).lookup name = none
        ∧ ∀ k, k ≠ name →
            (Request.data w2 r).lookup k = (Request.data w r).lookup k := by
  constructor
  · intro h
    unfold Request.removeData
    rw [DataMap.pyDel_of_lookup_none w.classData name h]
  · intro v hv
    obtain ⟨d2, hdel, hnone, hpres⟩ :=
      DataMap.pyDel_of_lookup_some w.classData name v hv hkeys
    refine ⟨⟨d2⟩, ?_, hnone, hpres⟩
    unfold Request.removeData
    rw [hdel]

/-- C10 witness: deleting the absent field `"b"` from the map
`{"a": 1}` raises `KeyError("b")` and leaves the state unchanged. -/
theorem c10_removeData_missing_raises_witness :
    Request.removeData ⟨[("a", JValue.int 1)]⟩ ⟨"m"⟩ "b"
      = (.error (.keyError "b"), (⟨[("a", JValue.int 1)]⟩, ⟨"m"⟩)) :=
  (c10_removeData_missing_raises ⟨[("a", JValue.int 1)]⟩ ⟨"m"⟩ "b"
    (by decide)).1 rfl

/-- C4: `sendPreparedRequest` on any non-`Request` value fails with
`ValueError` for every transport (so no transport invocation can occur),
and on a `Request` instance it has exactly the effect of
`sendRequest(request.module, request.data)`. -/
theorem c4_sendPreparedRequest_validates (c : Connection) (t : Transport)
    (w : RequestWorld) :
    (∀ v : JValue, Connection.sendPreparedRequest c t w (.notRequest v)
        = .error (.valueError "request has to be a Request object"))
    ∧ ∀ r : RequestInstance, Connection.sendPreparedRequest c t w (.request r)
        = Connection.sendRequest c t r.module (.obj (Request.data w r)) :=
  ⟨fun _ => rfl, fun _ => rfl⟩

/-- C6: `sendRequest(module, data)` performs exactly one transport
invocation, POSTed to `{url}:{port}/request/`, with the envelope
`{token, module, data}` whose `token` is the Connection's current token
and whose `module` and `data` fields are the inputs verbatim. -/
theorem c6_sendRequest_envelope (c : Connection) (t : Transport)
    (module : String) (data : JValue) :
    Connection.sendRequest c t module data
      = (Connection.processTransport
          (t (c.url ++ ":" ++ toString c.port ++ "/" ++ "request" ++ "/")
            (.obj [("token", .str c.token), ("module", .str module),
                   ("data", data)]))).map Response.ofReq
    ∧ pyGetItem (c.sendRequestPayload module data) "token" = .ok (.str c.token)
    ∧ pyGetItem (c.sendRequestPayload module data) "module" = .ok (.str module)
    ∧ pyGetItem (c.sendRequestPayload module data) "data" = .ok data :=
  ⟨rfl, rfl, rfl, rfl⟩

/-- C8: `sendCustomRequest(handler, data)` performs exactly one transport
invocation, POSTed to `{url}:{port}/{handler}/`, with the envelope
`{token, data}` containing no `module` field; module calls resolve the
same path shape with the handler fixed to `"request"`. -/
theorem c8_sendCustomRequest_envelope (c : Connection) (t : Transport)
    (handler : String) (data : JValue) :
    Connection.sendCustomRequest c t handler data
      = (Connection.processTransport
          (t (c.url ++ ":" ++ toString c.port ++ "/" ++ handler ++ "/")
            (.obj [("token", .str c.token), ("data", data)]))).map Response.ofReq
    ∧ pyContains "module" (c.sendCustomRequestPayload data) = .ok false
    ∧ pyGetItem (c.sendCustomRequestPayload data) "token" = .ok (.str c.token)
    ∧ pyGetItem (c.sendCustomRequestPayload data) "data" = .ok data
    ∧ Connection.requestPath c "request"
        = c.url ++ ":" ++ toString c.port ++ "/" ++ "request" ++ "/" :=
  ⟨rfl, rfl, rfl, rfl, rfl⟩

/-- C2 counterexample: the server codes `("1: a", "b")` and
`(1, "a: b")` are distinct structured `(code, message)` pairs, yet both
dispatches raise the *same* `CloudRunError` — the exception carries only
the formatted string (the `CloudRunError` class adds no fields to
`Exception`), so the pair is not recoverable from it and the claim's
"queryable as structured fields" part fails on the code. -/
theorem c2_counterexample :
    Connection.sendRequest demoConn errTransportStrCode "m" (.obj [])
        = .error (.cloudRunError "Error 1: a: b")
    ∧ Connection.sendRequest demoConn errTransportIntCode "m" (.obj [])
        = .error (.cloudRunError "Error 1: a: b")
    ∧ (JValue.str "1: a", JValue.str "b") ≠ (JValue.int 1, JValue.str "a: b") := by
  refine ⟨rfl, rfl, ?_⟩
  intro h
  injection h with h1 h2
  exact JValue.noConfusion h1

/-- C2 (amended): when the transport answers the `request` dispatch with a
parseable body whose `error` member yields `code` and `message` (and the
HTTP status does not trip `raise_for_status` first), `sendRequest` fails
with a `CloudRunError` whose formatted text is
`"Error <code>: <message>"`, and no `Response` is constructed; the code
and message survive only inside that formatted string. -/
theorem c2_error_marker_raises (c : Connection) (t : Transport)
    (module : String) (data : JValue) (status : Nat)
    (headers : List (String × String)) (answer errObj code message : JValue)
    (ht : t (c.requestPath "request") (c.sendRequestPayload module data)
        = .ok ⟨status, some answer, headers⟩)
    (hstatus : ¬(400 ≤ status ∧ status < 600))
    (hmark : pyContains "error" answer = .ok true)
    (herr : pyGetItem answer "error" = .ok errObj)
    (hcode : pyGetItem errObj "code" = .ok code)
    (hmsg : pyGetItem errObj "message" = .ok message) :
    Connection.sendRequest c t module data
      = .error (.cloudRunError
          ("Error " ++ pyStr code ++ ": " ++ pyStr message)) := by
  simp only [Connection.sendRequest, Connection.privRequest, ht,
    Connection.processTransport, hmark, herr, hcode, hmsg]
  rw [if_neg hstatus]
  rfl

/-- C2 witness: a concrete dispatch whose body is
`{"error": {"code": 1, "message": "a: b"}}` raises the formatted
`CloudRunError`. -/
theorem c2_error_marker_raises_witness :
    Connection.sendRequest demoConn errTransportIntCode "m" (.obj [("k", .int 0)])
      = .error (.cloudRunError "Error 1: a: b") :=
  c2_error_marker_raises demoConn errTransportIntCode "m" (.obj [("k", .int 0)])
    200 [] (.obj [("error", .obj [("code", .int 1), ("message", .str "a: b")])])
    (.obj [("code", .int 1), ("message", .str "a: b")])
    (.int 1) (.str "a: b") rfl (by decide) rfl rfl rfl rfl

/-- C3 counterexample: a binary handle whose `read()` raises `OSError` is
passed to `setDataFromFile`; the call propagates the exception and
returns with the handle still open (`closed = false`), because the source
has no `try`/`finally` around `file.read()` — refuting the claim's
"closed on every failure path". -/
theorem c3_counterexample :
    (Request.setDataFromFile ⟨[]⟩ ⟨"m"⟩ "f" ⟨.error .osError, false⟩).2.2.closed
        = false
    ∧ (Request.setDataFromFile ⟨[]⟩ ⟨"m"⟩ "f" ⟨.error .osError, false⟩).1
        = .error .osError :=
  ⟨rfl, rfl⟩

/-- C3 (amended): `setDataFromFile` closes the handle on the success path;
when `read()` raises, the exception propagates and the handle is left
open, with the data map and the handle state unchanged. -/
theorem c3_closes_on_success_only (w : RequestWorld) (r : RequestInstance)
    (name : String) (file : PyFile) :
    (∀ B, file.readOutcome = .ok B →
      (Request.setDataFromFile w r name file).2.2.closed = true
      ∧ (Request.setDataFromFile w r name file).1 = .ok ())
    ∧ ∀ e, file.readOutcome = .error e →
      Request.setDataFromFile w r name file = (.error e, (w, r), file) := by
  constructor
  · intro B hB
    unfold Request.setDataFromFile
    rw [hB]
    exact ⟨rfl, rfl⟩
  · intro e he
    unfold Request.setDataFromFile
    rw [he]

/-- C3 witness: on a handle whose `read()` succeeds with content `[7]`,
the call returns with the handle closed. -/
theorem c3_closes_on_success_only_witness :
    (Request.setDataFromFile ⟨[]⟩ ⟨"m"⟩ "g" ⟨.ok [7], false⟩).2.2.closed = true
    ∧ (Request.setDataFromFile ⟨[]⟩ ⟨"m"⟩ "g" ⟨.ok [7], false⟩).1 = .ok () :=
  (c3_closes_on_success_only ⟨[]⟩ ⟨"m"⟩ "g" ⟨.ok [7], false⟩).1 [7] rfl

/-- C5 counterexample: the transport hands back HTTP status 301 (non-2xx)
with a body carrying the error marker; `raise_for_status` raises only for
statuses in `[400, 600)`, so the body *is* JSON-parsed and inspected and a
`CloudRunError` (ProtocolError) is raised — refuting "any non-2xx fails
as a transport error before JSON inspection, and no ProtocolError". -/
theorem c5_counterexample :
    redirectResult.status = 301
    ∧ Connection.sendRequest demoConn redirectTransport "m" (.obj [])
        = .error (.cloudRunError "Error 7: x") :=
  ⟨rfl, rfl⟩

/-- C5 (amended): when the transport returns an HTTP status in
`[400, 600)` (4xx/5xx), the dispatch fails with that HTTP error before any
JSON parsing or error-marker inspection — whatever the body holds — and
neither a `CloudRunError` nor a `Response` is produced.  Statuses below
400 (1xx/3xx) are not treated as errors and fall through to JSON
inspection. -/
theorem c5_http_error_fails_before_json (c : Connection) (t : Transport)
    (module : String) (data : JValue) (req : TransportResult)
    (ht : t (c.requestPath "request") (c.sendRequestPayload module data)
        = .ok req)
    (h4 : 400 ≤ req.status) (h6 : req.status < 600) :
    Connection.sendRequest c t module data = .error (.httpError req.status) := by
  simp only [Connection.sendRequest, Connection.privRequest, ht,
    Connection.processTransport]
  rw [if_pos ⟨h4, h6⟩]
  rfl

/-- C5 witness: a transport answering HTTP 500 with an unparseable body
makes `sendRequest` fail with the HTTP error (the body is never
parsed). -/
theorem c5_http_error_fails_before_json_witness :
    Connection.sendRequest demoConn serverErrTransport "m" (.obj [])
      = .error (.httpError 500) :=
  c5_http_error_fails_before_json demoConn serverErrTransport "m" (.obj [])
    ⟨500, none, []⟩ rfl (by decide) (by decide)

/-- C7: when `read()` yields the byte content `B`, `setDataFromFile`
succeeds, stores under the chosen field name the standard-base64 ASCII
string of `B`, and external base64 decoding of that stored string
reproduces `B` exactly. -/
theorem c7_base64_roundtrip (w : RequestWorld) (r : RequestInstance)
    (name : String) (file : PyFile) (B : List Nat)
    (hread : file.readOutcome = .ok B) (hbytes : ∀ b ∈ B, b < 256) :
    Request.setDataFromFile w r name file
        = (.ok (),
           (⟨(Request.data w r).upsert name (.str (String.mk (b64Encode B)))⟩, r),
           { file with closed := true })
    ∧ (Request.data
          (⟨(Request.data w r).upsert name
            (.str (String.mk (b64Encode B)))⟩ : RequestWorld) r).lookup name
        = some (.str (String.mk (b64Encode B)))
    ∧ b64Decode (String.mk (b64Encode B)).data = B := by
  refine ⟨?_, ?_, ?_⟩
  · unfold Request.setDataFromFile
    rw [hread]
    exact rfl
  · exact DataMap.lookup_upsert_self _ _ _
  · exact b64_roundtrip B hbytes

/-- C7 witness: the concrete content `[0, 255, 10]` is stored
base64-encoded and decodes back to `[0, 255, 10]`. -/
theorem c7_base64_roundtrip_witness :
    Request.setDataFromFile ⟨[]⟩ ⟨"m"⟩ "f" ⟨.ok [0, 255, 10], false⟩
        = (.ok (),
           (⟨(Request.data ⟨[]⟩ ⟨"m"⟩).upsert "f"
              (.str (String.mk (b64Encode [0, 255, 10])))⟩, ⟨"m"⟩),
           { readOutcome := .ok [0, 255, 10], closed := true })
    ∧ (Request.data
          (⟨(Request.data ⟨[]⟩ ⟨"m"⟩).upsert "f"
            (.str (String.mk (b64Encode [0, 255, 10])))⟩ : RequestWorld)
          ⟨"m"⟩).lookup "f"
        = some (.str (String.mk (b64Encode [0, 255, 10])))
    ∧ b64Decode (String.mk (b64Encode [0, 255, 10])).data = [0, 255, 10] :=
  c7_base64_roundtrip ⟨[]⟩ ⟨"m"⟩ "f" ⟨.ok [0, 255, 10], false⟩ [0, 255, 10]
    rfl (by decide)
